import Mathlib

/-!
Verification of the UVBasedPoseReader rig builder (UVBasedPoseReader.py).

The source is a flat procedural builder issuing calls against a host
scene-graph API (node creation, attribute addition, attribute setting,
attribute-to-attribute connection, parenting, shading assignment).  We
embed the scene as the ordered trace of host operations the builder
issues, and the builder itself as a function threading that scene state,
mirroring the Python method by method.  Node identifiers are assigned
sequentially by creation order, as a host would.

Attribute values are rationals (the host uses doubles; every value the
builder sets is a small rational, so ℚ is exact here).
-/

namespace UVPoseReader

/-- An attribute added to a node via addAttr: optional min/max bounds,
default value, whether it is a boolean attribute (at='bool'), whether it
is keyable (k=True). -/
structure AttrSpec where
  node : Nat
  attr : String
  lo : Option ℚ
  hi : Option ℚ
  dv : ℚ
  isBool : Bool
  keyable : Bool
deriving DecidableEq, Repr

/-- A setAttr call: target node and attribute, the values assigned, and
whether the call went through the lower-level maya.cmds path (which
bypasses the range validation pymel performs). -/
structure SetCall where
  node : Nat
  attr : String
  vals : List ℚ
  lowLevel : Bool
deriving DecidableEq, Repr

/-- An attribute-to-attribute connection (the >> operator). -/
structure Conn where
  src : Nat
  srcAttr : String
  dst : Nat
  dstAttr : String
deriving DecidableEq, Repr

/-- A created node: sequential id, node type, node name. -/
structure Node where
  id : Nat
  ntype : String
  name : String
deriving DecidableEq, Repr

/-- One host-API call issued by the builder. -/
inductive HostOp where
  | createNode (n : Node)
  | addAttr (a : AttrSpec)
  | setAttr (c : SetCall)
  | connect (c : Conn)
  | parentNode (child par : Nat)
  | assignShading (shader shape : Nat)
deriving DecidableEq, Repr

/-- The host scene: the trace of operations applied so far, plus the
next node id the host will hand out. -/
structure Scene where
  ops : List HostOp
  nextId : Nat
deriving DecidableEq, Repr

def emptyScene : Scene := ⟨[], 0⟩

def Scene.addOp (s : Scene) (op : HostOp) : Scene :=
  ⟨s.ops ++ [op], s.nextId⟩

/-- pm.createNode: creates a node of the given type and name, returns it. -/
def createNode (s : Scene) (ntype nm : String) : Scene × Nat :=
  (⟨s.ops ++ [.createNode ⟨s.nextId, ntype, nm⟩], s.nextId + 1⟩, s.nextId)

/-- pm.createNode with the p= flag: create the node as a child of par. -/
def createNodeUnder (s : Scene) (ntype nm : String) (par : Nat) : Scene × Nat :=
  let r := createNode s ntype nm
  ((r.1).addOp (.parentNode r.2 par), r.2)

/-- node.addAttr with min/max/dv/k: a numeric (double) attribute. -/
def addAttrNum (s : Scene) (node : Nat) (attr : String) (lo hi : Option ℚ)
    (dv : ℚ) (keyable : Bool) : Scene :=
  s.addOp (.addAttr ⟨node, attr, lo, hi, dv, false, keyable⟩)

/-- node.addAttr with at='bool'. -/
def addAttrBool (s : Scene) (node : Nat) (attr : String) (dv : ℚ)
    (keyable : Bool) : Scene :=
  s.addOp (.addAttr ⟨node, attr, none, none, dv, true, keyable⟩)

/-- node.setAttr: the ordinary pymel attribute-set path (range-validated). -/
def setAttr (s : Scene) (node : Nat) (attr : String) (vals : List ℚ) : Scene :=
  s.addOp (.setAttr ⟨node, attr, vals, false⟩)

/-- cmds.setAttr: the lower-level maya.cmds path, bypassing pymel's
range validation on color attributes. -/
def setAttrCmds (s : Scene) (node : Nat) (attr : String) (vals : List ℚ) : Scene :=
  s.addOp (.setAttr ⟨node, attr, vals, true⟩)

/-- The >> connection operator. -/
def connectAttr (s : Scene) (sn : Nat) (sa : String) (dn : Nat) (da : String) : Scene :=
  s.addOp (.connect ⟨sn, sa, dn, da⟩)

/-- pm.parent. -/
def parentCmd (s : Scene) (child par : Nat) : Scene :=
  s.addOp (.parentNode child par)

/-- pm.sphere(ch=False, n=nm): creates a transform of that name with a
nurbsSurface shape child; construction history disabled means no history
node is created.  Returns (scene, transform, shape). -/
def sphereCmd (s : Scene) (nm : String) : Scene × Nat × Nat :=
  let r1 := createNode s "transform" nm
  let r2 := createNode r1.1 "nurbsSurface" (nm ++ "Shape")
  ((r2.1).addOp (.parentNode r2.2 r1.2), r1.2, r2.2)

/-! ### Scene accessors -/

def Scene.nodes (s : Scene) : List Node :=
  s.ops.filterMap fun op =>
    match op with
    | .createNode n => some n
    | _ => none

def Scene.hasNode (s : Scene) (i : Nat) (t nm : String) : Bool :=
  s.nodes.contains ⟨i, t, nm⟩

def Scene.addedAttrsOf (s : Scene) (node : Nat) : List AttrSpec :=
  s.ops.filterMap fun op =>
    match op with
    | .addAttr a => if a.node == node then some a else none
    | _ => none

def Scene.setCalls (s : Scene) : List SetCall :=
  s.ops.filterMap fun op =>
    match op with
    | .setAttr c => some c
    | _ => none

def Scene.setCallsOn (s : Scene) (node : Nat) (attr : String) : List SetCall :=
  s.setCalls.filter fun c => c.node == node && c.attr == attr

def Scene.conns (s : Scene) : List Conn :=
  s.ops.filterMap fun op =>
    match op with
    | .connect c => some c
    | _ => none

def Scene.hasConn (s : Scene) (sn : Nat) (sa : String) (dn : Nat) (da : String) : Bool :=
  s.conns.contains ⟨sn, sa, dn, da⟩

/-- An attribute is driven when it is the destination of some connection. -/
def Scene.isDriven (s : Scene) (node : Nat) (attr : String) : Bool :=
  s.conns.any fun c => c.dst == node && c.dstAttr == attr

def Scene.parentOf (s : Scene) (child : Nat) : Option Nat :=
  (s.ops.filterMap fun op =>
    match op with
    | .parentNode c p => if c == child then some p else none
    | _ => none).getLast?

/-! ### The builder, mirroring UVBasedPoseReader method by method -/

/-- The node references _basic_setup stores on self. -/
structure BasicNodes where
  info_node : Nat
  sphere : Nat
  sphereShape : Nat
  point_on_surface : Nat
  ramp : Nat
deriving DecidableEq, Repr

/-- _basic_setup: the nurbs sphere, sampling chain, core ramp and the
cone-angle remap/reverse chain (source lines 53-98). -/
def basicSetup (name : String) (cone_angle : ℚ) (s : Scene) : Scene × BasicNodes :=
  let r := createNode s "transform" ("C_" ++ name ++ "_GRP")
  let info_node := r.2
  let s := addAttrNum r.1 info_node "outValue" (some (-1)) (some 1) 0 true
  let s := addAttrNum s info_node "coneAngle" (some 0) (some 180) cone_angle true
  let s := addAttrBool s info_node "visualize" 1 true
  let rs := sphereCmd s ("C_" ++ name ++ "_NRB")
  let sphere := rs.2.1
  let sphereShape := rs.2.2
  let s := parentCmd rs.1 sphere info_node
  let rp := createNode s "closestPointOnSurface" "closestPointOnSurface1"
  let point_on_surface := rp.2
  let rm := createNode rp.1 "multDoubleLinear" "multDoubleLinear1"
  let mdl := rm.2
  let rr := createNode rm.1 "ramp" "ramp1"
  let ramp := rr.2
  let s := connectAttr rr.1 sphere "ws" point_on_surface "inputSurface"
  let s := setAttr s mdl "input2" [1/4]
  let s := connectAttr s point_on_surface "parameterU" mdl "input1"
  let s := connectAttr s mdl "output" ramp "uCoord"
  let s := setAttr s ramp "type" [1]
  let s := setAttr s ramp "colorEntryList[0].color" [0, 0, 0]
  let s := setAttr s ramp "colorEntryList[1].position" [1]
  let s := setAttr s ramp "colorEntryList[1].color" [1, 1, 1]
  let s := setAttr s ramp "colorEntryList[2].position" [0]
  let s := setAttrCmds s ramp "colorEntryList[2].color" [-1, -1, -1]
  let s := setAttr s ramp "colorEntryList[3].color" [0, 0, 0]
  let s := connectAttr s ramp "outColorR" info_node "outValue"
  let rv := createNode s "remapValue" "coneAngle"
  let rmv := rv.2
  let s := setAttr rv.1 rmv "inputMin" [0]
  let s := setAttr s rmv "inputMax" [180]
  let s := setAttr s rmv "outputMin" [1]
  let s := setAttr s rmv "outputMax" [1/2]
  let s := connectAttr s info_node "coneAngle" rmv "inputValue"
  let s := connectAttr s rmv "outValue" ramp "colorEntryList[0].position"
  let rw := createNode s "reverse" "coneAngle"
  let rvs := rw.2
  let s := connectAttr rw.1 rmv "outValue" rvs "inputX"
  let s := connectAttr s rvs "outputX" ramp "colorEntryList[3].position"
  (s, ⟨info_node, sphere, sphereShape, point_on_surface, ramp⟩)

/-- _target_setup: driver and pose locator hierarchy and the
decompose-matrix feed of the sampler (source lines 100-124).
Returns (scene, driver, pose). -/
def targetSetup (name : String) (info_node point_on_surface : Nat)
    (s : Scene) : Scene × Nat × Nat :=
  let rd := createNodeUnder s "transform" ("C_" ++ name ++ "Driver_LOC") info_node
  let driver := rd.2
  let rds := createNodeUnder rd.1 "locator" ("C_" ++ name ++ "Driver_LOCShape") driver
  let rp := createNodeUnder rds.1 "transform" ("C_" ++ name ++ "Pose_LOC") driver
  let pose := rp.2
  let rps := createNodeUnder rp.1 "locator" ("C_" ++ name ++ "Pose_LOCShape") pose
  let s := setAttr rps.1 pose "tx" [1]
  let rdc := createNode s "decomposeMatrix" "decomposeMatrix1"
  let dcm := rdc.2
  let s := connectAttr rdc.1 pose "wm" dcm "inputMatrix"
  let s := connectAttr s dcm "outputTranslate" point_on_surface "inPosition"
  (s, driver, pose)

/-- _visualizer_setup: second ramp, surface shader and render set for
the red/green preview (source lines 126-160). -/
def visualizerSetup (ramp sphereShape : Nat) (s : Scene) : Scene :=
  let rsdr := createNode s "surfaceShader" "visualize"
  let visualize_sdr := rsdr.2
  let rset := createNode rsdr.1 "shadingEngine" "visualize"
  let sets := rset.2
  let s := connectAttr rset.1 visualize_sdr "outColor" sets "surfaceShader"
  let rvr := createNode s "ramp" "visualize"
  let vis_ramp := rvr.2
  let s := setAttr rvr.1 vis_ramp "type" [1]
  let s := setAttr s vis_ramp "colorEntryList[0].color" [0, 0, 0]
  let s := setAttr s vis_ramp "colorEntryList[1].position" [1]
  let s := setAttr s vis_ramp "colorEntryList[1].color" [0, 0, 0]
  let s := setAttr s vis_ramp "colorEntryList[2].position" [0]
  let s := setAttrCmds s vis_ramp "colorEntryList[2].color" [0, 0, 0]
  let s := setAttr s vis_ramp "colorEntryList[3].color" [0, 0, 0]
  let s := connectAttr s ramp "outColorR" vis_ramp "colorEntryList[1].color.colorG"
  let rv := createNode s "remapValue" "visualize"
  let rmv := rv.2
  let s := setAttr rv.1 rmv "inputMin" [-1]
  let s := setAttr s rmv "inputMax" [0]
  let s := setAttr s rmv "outputMin" [1]
  let s := setAttr s rmv "outputMax" [0]
  let s := connectAttr s ramp "outColorR" rmv "inputValue"
  let s := connectAttr s rmv "outValue" vis_ramp "colorEntryList[2].color.colorR"
  let s := connectAttr s ramp "colorEntryList[0].position" vis_ramp "colorEntryList[0].position"
  let s := connectAttr s ramp "colorEntryList[3].position" vis_ramp "colorEntryList[3].position"
  let s := connectAttr s vis_ramp "outColor" visualize_sdr "outColor"
  s.addOp (.assignShading visualize_sdr sphereShape)

/-- The references the instance holds after construction. -/
structure Reader where
  name : String
  cone_angle : ℚ
  with_visualizer : Bool
  info_node : Nat
  sphere : Nat
  point_on_surface : Nat
  ramp : Nat
  driver : Nat
  pose : Nat
deriving DecidableEq, Repr

/-- setup: basic, then target, then (optionally) visualizer (lines 44-51). -/
def setup (name : String) (cone_angle : ℚ) (with_visualizer : Bool)
    (s : Scene) : Scene × Reader :=
  let rb := basicSetup name cone_angle s
  let b := rb.2
  let rt := targetSetup name b.info_node b.point_on_surface rb.1
  let driver := rt.2.1
  let pose := rt.2.2
  let s := if with_visualizer then visualizerSetup b.ramp b.sphereShape rt.1 else rt.1
  (s, ⟨name, cone_angle, with_visualizer, b.info_node, b.sphere,
       b.point_on_surface, b.ramp, driver, pose⟩)

/-- __init__: stores the arguments and immediately runs setup
(lines 21-42); construction itself performs the whole build. -/
def initReader (name : String) (cone_angle : ℚ) (with_visualizer : Bool)
    (s : Scene) : Scene × Reader :=
  setup name cone_angle with_visualizer s

/-- A build against a fresh host scene. -/
def build (name : String) (cone_angle : ℚ) (with_visualizer : Bool) : Scene × Reader :=
  initReader name cone_angle with_visualizer emptyScene

def buildScene (name : String) (cone_angle : ℚ) (with_visualizer : Bool) : Scene :=
  (build name cone_angle with_visualizer).1

/-- The module's top-level statement UVBasedPoseReader() (line 164):
importing the module constructs one reader with all-default arguments. -/
def moduleImport : Scene × Reader :=
  initReader "UVBasedPoseReader" 180 true emptyScene

/-! ### Host utility-node semantics (not part of this repository) -/

/-- Modelled from the spec: the host remapValue utility node maps its
inputValue linearly from [inputMin, inputMax] to [outputMin, outputMax]
(the spec: "a remap node mapping coneAngle linearly from [0,180] to
[1,0.5]").  The node itself is host-internal, not repository code. -/
def remapValueEval (inputMin inputMax outputMin outputMax x : ℚ) : ℚ :=
  outputMin + (x - inputMin) / (inputMax - inputMin) * (outputMax - outputMin)

/-- Modelled from the spec: the host reverse utility node outputs
1 - input ("a logical complement (reverse) node producing the mirrored
boundary value").  Host-internal, not repository code. -/
def reverseEval (x : ℚ) : ℚ := 1 - x

/-! ### Fallible replay of the builder's host calls

The builder has no try/except: it issues its host calls in a fixed
order, unconditionally.  `runHost` replays a call sequence against a
host that may raise on any call (`fail i = some e`: the i-th call raises
error e).  On a failure the replay stops, the host's error value is
handed back unmodified, and the scene keeps exactly the operations that
were applied before the failing call — there is no handler and no
rollback anywhere in the builder.  -/

def runHost (fail : Nat → Option String) :
    Nat → List HostOp → Except (String × List HostOp) (List HostOp)
  | _, [] => .ok []
  | i, op :: rest =>
    match fail i with
    | some e => .error (e, [])
    | none =>
      match runHost fail (i + 1) rest with
      | .ok doneOps => .ok (op :: doneOps)
      | .error r => .error (r.1, op :: r.2)

theorem runHost_error_at (fail : Nat → Option String) (e : String)
    (ops : List HostOp) :
    ∀ (i k : Nat), k < ops.length →
      (∀ j, j < k → fail (i + j) = none) → fail (i + k) = some e →
      runHost fail i ops = .error (e, ops.take k) := by
  induction ops with
  | nil => intro i k hk _ _; simp at hk
  | cons op rest ih =>
    intro i k hk hnone hfail
    cases k with
    | zero =>
      have h : fail i = some e := by simpa using hfail
      simp [runHost, h]
    | succ k1 =>
      have h0 : fail i = none := by simpa using hnone 0 (Nat.succ_pos k1)
      have hrec := ih (i + 1) k1 (by simpa using Nat.lt_of_succ_lt_succ hk)
        (fun j hj => by
          have := hnone (j + 1) (Nat.succ_lt_succ hj)
          simpa [Nat.add_comm, Nat.add_assoc, Nat.add_left_comm] using this)
        (by
          have heq : i + 1 + k1 = i + (k1 + 1) := by omega
          rw [heq]; exact hfail)
      simp [runHost, h0, hrec]

/-! ### The claims -/

set_option maxRecDepth 100000

/-- C1: in _basic_setup the cone-angle remapValue node (node 6) is
configured with input range [0,180] and output range [1,1/2], its
inputValue fed from the info node's coneAngle, and its output wired into
ramp stop 0's position; the reverse node (node 7) is fed by the remap
output and wired into ramp stop 3's position.  Consequently, under the
host remap/reverse semantics, cone_angle = 180 yields both driven
boundary positions 1/2, and cone_angle = 0 yields 1 and 0. -/
theorem C1_cone_angle_remap_chain (name : String) (ca : ℚ) (vis : Bool) :
    ((buildScene name ca vis).hasNode 6 "remapValue" "coneAngle" = true
      ∧ (buildScene name ca vis).setCallsOn 6 "inputMin" = [⟨6, "inputMin", [0], false⟩]
      ∧ (buildScene name ca vis).setCallsOn 6 "inputMax" = [⟨6, "inputMax", [180], false⟩]
      ∧ (buildScene name ca vis).setCallsOn 6 "outputMin" = [⟨6, "outputMin", [1], false⟩]
      ∧ (buildScene name ca vis).setCallsOn 6 "outputMax" = [⟨6, "outputMax", [1/2], false⟩]
      ∧ (buildScene name ca vis).hasConn 0 "coneAngle" 6 "inputValue" = true
      ∧ (buildScene name ca vis).hasConn 6 "outValue" 5 "colorEntryList[0].position" = true
      ∧ (buildScene name ca vis).hasNode 7 "reverse" "coneAngle" = true
      ∧ (buildScene name ca vis).hasConn 6 "outValue" 7 "inputX" = true
      ∧ (buildScene name ca vis).hasConn 7 "outputX" 5 "colorEntryList[3].position" = true)
    ∧ (remapValueEval 0 180 1 (1/2) 180 = 1/2
      ∧ reverseEval (remapValueEval 0 180 1 (1/2) 180) = 1/2
      ∧ remapValueEval 0 180 1 (1/2) 0 = 1
      ∧ reverseEval (remapValueEval 0 180 1 (1/2) 0) = 0) := by
  constructor
  · cases vis <;>
      simp [buildScene, build, initReader, setup, basicSetup, targetSetup,
        visualizerSetup, createNode, createNodeUnder, addAttrNum, addAttrBool,
        setAttr, setAttrCmds, connectAttr, parentCmd, sphereCmd, Scene.addOp,
        emptyScene, Scene.setCallsOn, Scene.setCalls, Scene.hasNode,
        Scene.nodes, Scene.hasConn, Scene.conns]
  · refine ⟨by norm_num [remapValueEval], by norm_num [remapValueEval, reverseEval],
      by norm_num [remapValueEval], by norm_num [remapValueEval, reverseEval]⟩

/-- C2: after _basic_setup the core ramp's outColorR is connected into
the info node's outValue; outValue is thereby driven (host-computed) and
it is the only added attribute of the info node that is driven, while
coneAngle is not driven and was added keyable (settable). -/
theorem C2_outValue_public_output (name : String) (ca : ℚ) (vis : Bool) :
    (buildScene name ca vis).hasConn 5 "outColorR" 0 "outValue" = true
    ∧ (buildScene name ca vis).isDriven 0 "outValue" = true
    ∧ (buildScene name ca vis).isDriven 0 "coneAngle" = false
    ∧ (((buildScene name ca vis).addedAttrsOf 0).filter
        (fun a => (buildScene name ca vis).isDriven 0 a.attr)).map (fun a => a.attr)
      = ["outValue"]
    ∧ ((buildScene name ca vis).addedAttrsOf 0).contains
        ⟨0, "coneAngle", some 0, some 180, ca, false, true⟩ = true := by
  cases vis <;>
    simp [buildScene, build, initReader, setup, basicSetup, targetSetup,
      visualizerSetup, createNode, createNodeUnder, addAttrNum, addAttrBool,
      setAttr, setAttrCmds, connectAttr, parentCmd, sphereCmd, Scene.addOp,
      emptyScene, Scene.hasConn, Scene.conns, Scene.isDriven,
      Scene.addedAttrsOf]

/-- C3: for every build the info node (node 0, created first) carries
exactly three added attributes: numeric outValue bounded to [-1,1],
numeric coneAngle bounded to [0,180] with default equal to the
cone_angle constructor argument, and boolean visualize with default
true (dv = 1). -/
theorem C3_info_node_three_attributes (name : String) (ca : ℚ) (vis : Bool) :
    (buildScene name ca vis).addedAttrsOf 0 =
      [⟨0, "outValue", some (-1), some 1, 0, false, true⟩,
       ⟨0, "coneAngle", some 0, some 180, ca, false, true⟩,
       ⟨0, "visualize", none, none, 1, true, true⟩]
    ∧ (buildScene name ca vis).hasNode 0 "transform" ("C_" ++ name ++ "_GRP") = true := by
  cases vis <;>
    simp [buildScene, build, initReader, setup, basicSetup, targetSetup,
      visualizerSetup, createNode, createNodeUnder, addAttrNum, addAttrBool,
      setAttr, setAttrCmds, connectAttr, parentCmd, sphereCmd, Scene.addOp,
      emptyScene, Scene.addedAttrsOf, Scene.hasNode, Scene.nodes]

/-- C4: the core ramp (node 5) has exactly four stops: entry 2 at the
statically set position 0, entry 1 at the statically set position 1,
entry 0 at the remap-driven boundary and entry 3 at the reverse-driven
boundary; the colors are (0,0,0), (1,1,1), (-1,-1,-1), (0,0,0); exactly
one set call on the ramp assigns a negative value — the (-1,-1,-1) color
of entry 2 — and that one call is the only one on the ramp issued
through the lower-level path that bypasses range validation; the
complete set of incoming connections to the ramp is the uCoord feed and
the two driven stop positions. -/
theorem C4_ramp_four_stops_negative_color (name : String) (ca : ℚ) (vis : Bool) :
    (buildScene name ca vis).hasNode 5 "ramp" "ramp1" = true
    ∧ ((buildScene name ca vis).setCalls.filter (fun c => c.node == 5))
      = [⟨5, "type", [1], false⟩,
         ⟨5, "colorEntryList[0].color", [0, 0, 0], false⟩,
         ⟨5, "colorEntryList[1].position", [1], false⟩,
         ⟨5, "colorEntryList[1].color", [1, 1, 1], false⟩,
         ⟨5, "colorEntryList[2].position", [0], false⟩,
         ⟨5, "colorEntryList[2].color", [-1, -1, -1], true⟩,
         ⟨5, "colorEntryList[3].color", [0, 0, 0], false⟩]
    ∧ (buildScene name ca vis).isDriven 5 "colorEntryList[0].position" = true
    ∧ (buildScene name ca vis).isDriven 5 "colorEntryList[3].position" = true
    ∧ ((buildScene name ca vis).setCalls.filter
        (fun c => c.node == 5 && c.vals.any (fun v => decide (v < 0))))
      = [⟨5, "colorEntryList[2].color", [-1, -1, -1], true⟩]
    ∧ ((buildScene name ca vis).setCalls.filter (fun c => c.node == 5 && c.lowLevel))
      = [⟨5, "colorEntryList[2].color", [-1, -1, -1], true⟩]
    ∧ ((buildScene name ca vis).conns.filter (fun c => c.dst == 5))
      = [⟨4, "output", 5, "uCoord"⟩,
         ⟨6, "outValue", 5, "colorEntryList[0].position"⟩,
         ⟨7, "outputX", 5, "colorEntryList[3].position"⟩] := by
  cases vis <;>
    simp [buildScene, build, initReader, setup, basicSetup, targetSetup,
      visualizerSetup, createNode, createNodeUnder, addAttrNum, addAttrBool,
      setAttr, setAttrCmds, connectAttr, parentCmd, sphereCmd, Scene.addOp,
      emptyScene, Scene.hasNode, Scene.nodes, Scene.setCalls, Scene.conns,
      Scene.isDriven]

/-- C5: the sampling chain multiplies the closest-point sampler's
parameterU by 0.25: the multDoubleLinear node (node 4) has input2 set to
1/4, its input1 connected from the sampler's parameterU, and its output
connected into the ramp's uCoord. -/
theorem C5_quarter_multiplier (name : String) (ca : ℚ) (vis : Bool) :
    (buildScene name ca vis).hasNode 3 "closestPointOnSurface" "closestPointOnSurface1" = true
    ∧ (buildScene name ca vis).hasNode 4 "multDoubleLinear" "multDoubleLinear1" = true
    ∧ (buildScene name ca vis).setCallsOn 4 "input2" = [⟨4, "input2", [1/4], false⟩]
    ∧ (buildScene name ca vis).hasConn 3 "parameterU" 4 "input1" = true
    ∧ (buildScene name ca vis).hasConn 4 "output" 5 "uCoord" = true := by
  cases vis <;>
    simp [buildScene, build, initReader, setup, basicSetup, targetSetup,
      visualizerSetup, createNode, createNodeUnder, addAttrNum, addAttrBool,
      setAttr, setAttrCmds, connectAttr, parentCmd, sphereCmd, Scene.addOp,
      emptyScene, Scene.hasNode, Scene.nodes, Scene.setCallsOn, Scene.setCalls,
      Scene.hasConn, Scene.conns]

/-- C6 counterexample: in the default build, ramp stop 1's position is
not driven by any connection — it is independently set, statically, to
1 — refuting the claim that every stop position of the core ramp is
driven by the cone-angle remap/reverse chain and never independently
settable. -/
theorem C6_counterexample_static_stop :
    (buildScene "UVBasedPoseReader" 180 true).isDriven 5 "colorEntryList[1].position" = false
    ∧ (buildScene "UVBasedPoseReader" 180 true).setCallsOn 5 "colorEntryList[1].position"
      = [⟨5, "colorEntryList[1].position", [1], false⟩] := by
  constructor <;> decide

/-- C6 amended: only the two outer boundary stops of the core ramp
(entries 0 and 3) have driven positions, connected from the cone-angle
remapValue/reverse chain, and no set call ever touches those two
positions; the two inner stops (entries 1 and 2) have statically set
positions 1 and 0 and are not driven. -/
theorem C6_amended_boundary_stops_driven (name : String) (ca : ℚ) (vis : Bool) :
    ((buildScene name ca vis).conns.filter
        (fun c => c.dst == 5
          && (c.dstAttr == "colorEntryList[0].position"
            || c.dstAttr == "colorEntryList[1].position"
            || c.dstAttr == "colorEntryList[2].position"
            || c.dstAttr == "colorEntryList[3].position")))
      = [⟨6, "outValue", 5, "colorEntryList[0].position"⟩,
         ⟨7, "outputX", 5, "colorEntryList[3].position"⟩]
    ∧ (buildScene name ca vis).hasNode 6 "remapValue" "coneAngle" = true
    ∧ (buildScene name ca vis).hasNode 7 "reverse" "coneAngle" = true
    ∧ (buildScene name ca vis).setCallsOn 5 "colorEntryList[0].position" = []
    ∧ (buildScene name ca vis).setCallsOn 5 "colorEntryList[3].position" = []
    ∧ (buildScene name ca vis).setCallsOn 5 "colorEntryList[1].position"
      = [⟨5, "colorEntryList[1].position", [1], false⟩]
    ∧ (buildScene name ca vis).setCallsOn 5 "colorEntryList[2].position"
      = [⟨5, "colorEntryList[2].position", [0], false⟩]
    ∧ (buildScene name ca vis).isDriven 5 "colorEntryList[1].position" = false
    ∧ (buildScene name ca vis).isDriven 5 "colorEntryList[2].position" = false := by
  cases vis <;>
    simp [buildScene, build, initReader, setup, basicSetup, targetSetup,
      visualizerSetup, createNode, createNodeUnder, addAttrNum, addAttrBool,
      setAttr, setAttrCmds, connectAttr, parentCmd, sphereCmd, Scene.addOp,
      emptyScene, Scene.hasNode, Scene.nodes, Scene.setCallsOn, Scene.setCalls,
      Scene.conns, Scene.isDriven]

/-- C7: for every name, cone_angle and visualizer flag, the pose
transform (node 10) is created as a child of the driver transform
(node 8), which is itself a child of the info node (node 0), and the
pose transform's only local-offset set call is tx = 1 — independent of
the arguments. -/
theorem C7_pose_unit_offset (name : String) (ca : ℚ) (vis : Bool) :
    (buildScene name ca vis).parentOf 10 = some 8
    ∧ (buildScene name ca vis).parentOf 8 = some 0
    ∧ (buildScene name ca vis).hasNode 10 "transform" ("C_" ++ name ++ "Pose_LOC") = true
    ∧ (buildScene name ca vis).hasNode 8 "transform" ("C_" ++ name ++ "Driver_LOC") = true
    ∧ (buildScene name ca vis).setCallsOn 10 "tx" = [⟨10, "tx", [1], false⟩]
    ∧ ((buildScene name ca vis).setCalls.filter (fun c => c.node == 10))
      = [⟨10, "tx", [1], false⟩] := by
  cases vis <;>
    simp [buildScene, build, initReader, setup, basicSetup, targetSetup,
      visualizerSetup, createNode, createNodeUnder, addAttrNum, addAttrBool,
      setAttr, setAttrCmds, connectAttr, parentCmd, sphereCmd, Scene.addOp,
      emptyScene, Scene.hasNode, Scene.nodes, Scene.setCallsOn, Scene.setCalls,
      Scene.parentOf]

/-- C8: with with_visualizer = false the build contains no surface
shader, no render set and only the single core ramp; with the flag true
the node list is exactly the false-build's node list followed by the
four visualizer nodes, and the false-build's operation trace is exactly
the prefix of the true-build's trace — the base and target phases are
identical under both flags. -/
theorem C8_no_visualizer_when_disabled (name : String) (ca : ℚ) :
    ((buildScene name ca false).nodes.filter
        (fun n => n.ntype == "surfaceShader" || n.ntype == "shadingEngine")) = []
    ∧ ((buildScene name ca false).nodes.filter (fun n => n.ntype == "ramp"))
      = [⟨5, "ramp", "ramp1"⟩]
    ∧ (buildScene name ca true).nodes
      = (buildScene name ca false).nodes ++
        [⟨13, "surfaceShader", "visualize"⟩, ⟨14, "shadingEngine", "visualize"⟩,
         ⟨15, "ramp", "visualize"⟩, ⟨16, "remapValue", "visualize"⟩]
    ∧ (buildScene name ca true).ops.take (buildScene name ca false).ops.length
      = (buildScene name ca false).ops := by
  simp [buildScene, build, initReader, setup, basicSetup, targetSetup,
    visualizerSetup, createNode, createNodeUnder, addAttrNum, addAttrBool,
    setAttr, setAttrCmds, connectAttr, parentCmd, sphereCmd, Scene.addOp,
    emptyScene, Scene.nodes]

/-- C9: the builder handles no errors: replaying its host-call sequence
against a host whose k-th call raises error e (all earlier calls
succeeding) yields exactly that error value, unmodified, together with a
scene holding exactly the operations issued before the failing call —
no cleanup and no rollback of earlier mutations. -/
theorem C9_failures_propagate_no_rollback (name : String) (ca : ℚ) (vis : Bool)
    (fail : Nat → Option String) (e : String) (k : Nat)
    (hk : k < (buildScene name ca vis).ops.length)
    (hbefore : ∀ j, j < k → fail j = none)
    (hfail : fail k = some e) :
    runHost fail 0 (buildScene name ca vis).ops
      = .error (e, (buildScene name ca vis).ops.take k) := by
  exact runHost_error_at fail e (buildScene name ca vis).ops 0 k hk
    (fun j hj => by simpa using hbefore j hj) (by simpa using hfail)

/-- C9 witness: a host that raises "duplicate name" on its fourth call
(index 3) makes the default-argument build stop there, hand back that
error, and leave exactly the first three operations applied. -/
theorem C9_witness_duplicate_name :
    runHost (fun j => if j == 3 then some "duplicate name" else none) 0
        (buildScene "A" 180 true).ops
      = .error ("duplicate name", (buildScene "A" 180 true).ops.take 3) :=
  C9_failures_propagate_no_rollback "A" 180 true
    (fun j => if j == 3 then some "duplicate name" else none) "duplicate name" 3
    (by decide) (by decide) (by decide)

/-- C10: constructing the reader performs the entire build (__init__ is
exactly setup, with no separate build call), and the module's top-level
statement runs the constructor with all-default arguments
(name "UVBasedPoseReader", cone_angle 180, with_visualizer true), so
importing the module mutates the host scene by building one complete
17-node rig, visualizer included. -/
theorem C10_import_builds_rig :
    moduleImport = initReader "UVBasedPoseReader" 180 true emptyScene
    ∧ (∀ (n : String) (ca : ℚ) (v : Bool) (s : Scene),
        initReader n ca v s = setup n ca v s)
    ∧ moduleImport.1.nodes.length = 17
    ∧ moduleImport.1.nodes ≠ []
    ∧ moduleImport.1.hasNode 13 "surfaceShader" "visualize" = true
    ∧ moduleImport.2.name = "UVBasedPoseReader"
    ∧ moduleImport.2.cone_angle = 180
    ∧ moduleImport.2.with_visualizer = true := by
  refine ⟨rfl, fun n ca v s => rfl, by decide, by decide, by decide, rfl, rfl, rfl⟩

end UVPoseReader
